import Mathlib

/-!
# ITK-SNAP GUI glue: command-line bootstrap and VTK renderer adapter

A shallow embedding of

* `src/GUI/Qt/main.cxx` (`setupParser`, `main`), and
* `src/GUI/Renderer/AbstractVTKRenderer.cxx` (constructor, `SetInteractionStyle`).

`main` is embedded as a pure function from its inputs (the argument vector and
the behaviour of its collaborators) to the sequence of externally visible
actions it performs together with its return value.  Collaborators whose code
is not part of these files (the command-line parser class, the image loading
delegates, the Qt event loop, `atof`) are parameters of the embedding, gathered
in `Environment`.
-/

namespace ITKSnap

/-! ## Command-line parser configuration (`setupParser`) -/

/-- Configuration held by a `CommandLineArgumentParser`: the options registered
with `AddOption` (common name and number of parameters) and the synonyms
registered with `AddSynonim` (common name, synonym), in call order. -/
structure CommandLineArgumentParser where
  options : List (String × Int)
  synonyms : List (String × String)
  deriving DecidableEq, Repr

namespace CommandLineArgumentParser

/-- A default-constructed parser, `CommandLineArgumentParser parser;`. -/
def default : CommandLineArgumentParser := ⟨[], []⟩

/-- Record of `parser.AddOption(name, nParameters)`. -/
def AddOption (parser : CommandLineArgumentParser) (name : String) (nParameters : Int) :
    CommandLineArgumentParser :=
  { parser with options := parser.options ++ [(name, nParameters)] }

/-- Record of `parser.AddSynonim(option, synonim)`. -/
def AddSynonim (parser : CommandLineArgumentParser) (option synonim : String) :
    CommandLineArgumentParser :=
  { parser with synonyms := parser.synonyms ++ [(option, synonim)] }

end CommandLineArgumentParser

/-- Embedding of `setupParser` (main.cxx lines 77-107). -/
def setupParser (parser : CommandLineArgumentParser) : CommandLineArgumentParser :=
  let parser := parser.AddOption "--grey" 1
  let parser := parser.AddSynonim "--grey" "-g"
  let parser := parser.AddOption "--main" 1
  let parser := parser.AddSynonim "--main" "-m"
  let parser := parser.AddOption "--rgb" 1
  let parser := parser.AddOption "--segmentation" 1
  let parser := parser.AddSynonim "--segmentation" "-s"
  let parser := parser.AddSynonim "--segmentation" "-seg"
  let parser := parser.AddOption "--overlay" 1
  let parser := parser.AddSynonim "--overlay" "-o"
  let parser := parser.AddOption "--labels" 1
  let parser := parser.AddSynonim "--labels" "--label"
  let parser := parser.AddSynonim "--labels" "-l"
  let parser := parser.AddOption "--zoom" 1
  let parser := parser.AddSynonim "--zoom" "-z"
  let parser := parser.AddOption "--compact" 1
  let parser := parser.AddSynonim "--compact" "-c"
  let parser := parser.AddOption "--help" 0
  let parser := parser.AddSynonim "--help" "-h"
  parser

/-! ## Collaborators of `main` -/

/-- The enumeration `IRISApplication::MainImageType`, with the three values
used by `main`. -/
inductive MainImageType
  | MAIN_RGB
  | MAIN_SCALAR
  | MAIN_ANY
  deriving DecidableEq, Repr

/-- The interface of `CommandLineArgumentParseResult` that `main` uses:
`IsOptionPresent(name)` and `GetOptionParameter(name)`.  The class itself is
defined outside the embedded files, so a parse result is any pair of such
functions. -/
structure CommandLineArgumentParseResult where
  IsOptionPresent : String → Bool
  GetOptionParameter : String → String

/-- An `itk::ExceptionObject` as far as `main` looks at it: its rendering on a
stream (`cerr << exc`) and `exc.GetDescription()`. -/
structure ExceptionObject where
  streamText : String
  GetDescription : String
  deriving DecidableEq, Repr

/-- Externally visible actions of `main`, in the order of the source text.

* `cerr parts` is one line `cerr << p1 << p2 << ... << endl`, with the streamed
  pieces in order;
* `LoadMainImage fn t` is `gui->LoadImageNonInteractive(fn, del, warnings)` with
  `del` a `LoadMainImageDelegate(gui, t)`; likewise for the segmentation and
  overlay delegates;
* `SetZoomLevelAllWindows s` carries the option text `s`; the value passed in
  the source is the `double` `atof(s)`. -/
inductive Event
  | LoadUserPreferences
  | MainWindowSetup
  | usage
  | cerr (parts : List String)
  | LoadMainImage (fname : String) (main_type : MainImageType)
  | LoadSegmentationImage (fname : String)
  | LoadOverlayImage (fname : String) (type : MainImageType)
  | LoadLabelDescriptions (fname : String)
  | SetLinkedZoom (flag : Bool)
  | SetZoomLevelAllWindows (zoomText : String)
  | show
  | exec
  | SaveUserPreferences
  deriving DecidableEq, Repr

/-- Behaviour of everything `main` calls but does not define.

* `TryParseCommandLine parser argv failOnUnknownTrailing` is
  `parser.TryParseCommandLine(argc, argv, parseResult, failOnUnknownTrailing, iTrailing)`:
  the returned triple is the `bool` result, the `parseResult` written by the
  call and the value written to `iTrailing`;
* `throws history` tells whether the last call recorded in `history` (the
  actions performed so far, that call included) throws an
  `itk::ExceptionObject`, and which;
* `atofNonNegative s` is the comparison `atof(s) >= 0.0`, `atofText s` the
  rendering of `atof(s)` on a stream;
* `exec history` is the value returned by `app.exec()`. -/
structure Environment where
  TryParseCommandLine :
    CommandLineArgumentParser → List String → Bool → Bool × CommandLineArgumentParseResult × Nat
  throws : List Event → Option ExceptionObject
  atofNonNegative : String → Bool
  atofText : String → String
  exec : List Event → Int

/-- What a run of `main` does: the actions performed, and the return value. -/
structure Outcome where
  trace : List Event
  rc : Int
  deriving DecidableEq, Repr

/-! ## `main` -/

/-- Lines 300-367 of main.cxx: label descriptions, initial zoom, showing the
main window, the event loop, saving the preferences.  Control falls off the
end of `main`, so the return value is 0. -/
def runApplication (env : Environment) (parseResult : CommandLineArgumentParseResult)
    (t : List Event) : Outcome :=
  -- Load labels if supplied
  let t :=
    if parseResult.IsOptionPresent "--labels" then
      let fname := parseResult.GetOptionParameter "--labels"
      let t := t ++ [Event.LoadLabelDescriptions fname]
      match env.throws t with
      | some exc => t ++ [Event.cerr ["Error reading label descriptions: ", exc.GetDescription]]
      | none => t
    else t
  -- Set initial zoom if specified
  let t :=
    if parseResult.IsOptionPresent "--zoom" then
      let zoom := parseResult.GetOptionParameter "--zoom"
      if env.atofNonNegative zoom then
        t ++ [Event.SetLinkedZoom true, Event.SetZoomLevelAllWindows zoom]
      else
        t ++ [Event.cerr ["Invalid zoom level (", env.atofText zoom, ") specified"]]
    else t
  -- Show the panel
  let t := t ++ [Event.show]
  -- Run application
  let t := t ++ [Event.exec]
  let rc := env.exec t
  -- If everything cool, save the preferences
  let t := if rc = 0 then t ++ [Event.SaveUserPreferences] else t
  ⟨t, 0⟩

/-- Lines 276-298 of main.cxx: the overlay, then the rest of `main`. -/
def loadOverlay (env : Environment) (parseResult : CommandLineArgumentParseResult)
    (t : List Event) : Outcome :=
  if parseResult.IsOptionPresent "--overlay" then
    let fname := parseResult.GetOptionParameter "--overlay"
    let t := t ++ [Event.LoadOverlayImage fname MainImageType.MAIN_ANY]
    match env.throws t with
    | some exc =>
      ⟨t ++ [Event.cerr ["Error loading overlay '", fname, "'"],
             Event.cerr ["Reason: ", exc.streamText]], -1⟩
    | none => runApplication env parseResult t
  else runApplication env parseResult t

/-- Lines 253-274 of main.cxx: the segmentation, then the rest of `main`. -/
def loadSegmentation (env : Environment) (parseResult : CommandLineArgumentParseResult)
    (t : List Event) : Outcome :=
  if parseResult.IsOptionPresent "--segmentation" then
    let fname := parseResult.GetOptionParameter "--segmentation"
    let t := t ++ [Event.LoadSegmentationImage fname]
    match env.throws t with
    | some exc =>
      ⟨t ++ [Event.cerr ["Error loading segmentation '", fname, "'"],
             Event.cerr ["Reason: ", exc.streamText]], -1⟩
    | none => loadOverlay env parseResult t
  else loadOverlay env parseResult t

/-- Lines 234-298 of main.cxx: `if(fnMain) { ... }`, then the rest of `main`.
`fnMain = none` is the null pointer. -/
def loadImages (env : Environment) (parseResult : CommandLineArgumentParseResult)
    (fnMain : Option String) (main_type : MainImageType) (t : List Event) : Outcome :=
  match fnMain with
  | some fn =>
    let t := t ++ [Event.LoadMainImage fn main_type]
    match env.throws t with
    | some exc =>
      ⟨t ++ [Event.cerr ["Error loading image '", fn, "'"],
             Event.cerr ["Reason: ", exc.streamText]], -1⟩
    | none => loadSegmentation env parseResult t
  | none => runApplication env parseResult t

/-- Lines 197-219 of main.cxx: the main image file name `fnMain` (`none` is
`NULL`) and `main_type`.  `argc` is `argv.length`. -/
def selectMainImage (parseResult : CommandLineArgumentParseResult) (argv : List String)
    (iTrailing : Nat) : Option String × MainImageType :=
  if parseResult.IsOptionPresent "--main" then
    (some (parseResult.GetOptionParameter "--main"), MainImageType.MAIN_ANY)
  else if parseResult.IsOptionPresent "--grey" then
    (some (parseResult.GetOptionParameter "--grey"), MainImageType.MAIN_SCALAR)
  else if parseResult.IsOptionPresent "--rgb" then
    (some (parseResult.GetOptionParameter "--rgb"), MainImageType.MAIN_RGB)
  else if h : iTrailing < argv.length then
    (some (argv.get ⟨iTrailing, h⟩), MainImageType.MAIN_ANY)
  else
    (none, MainImageType.MAIN_ANY)

/-- Embedding of `main` (main.cxx lines 109-367).  `argv` is the argument
vector as `main` sees it after the `QApplication` has been constructed, and
`argc` is its length.  The steps before the user preferences are loaded
(signal handlers, the ITK warning switch, creation of the `QApplication` and of
the `GlobalUIModel`) leave no entry in the trace. -/
def main (env : Environment) (argv : List String) : Outcome :=
  -- Load the user preferences, create the main window
  let t := [Event.LoadUserPreferences, Event.MainWindowSetup]
  -- Parse command line arguments
  let parser := setupParser CommandLineArgumentParser.default
  let parsed := env.TryParseCommandLine parser argv false
  let parseResult := parsed.2.1
  let iTrailing := parsed.2.2
  if !parsed.1 then
    ⟨t ++ [Event.cerr ["Unable to parse command line. Run ", argv.getD 0 "", " -h for help"]], -1⟩
  else if parseResult.IsOptionPresent "--help" then
    ⟨t ++ [Event.usage], 0⟩
  -- Check validity of options for main image
  else if parseResult.IsOptionPresent "--grey" && parseResult.IsOptionPresent "--rgb" then
    ⟨t ++ [Event.cerr ["Error: options --rgb and --grey are mutually exclusive."]], -1⟩
  else if parseResult.IsOptionPresent "--main" && parseResult.IsOptionPresent "--rgb" then
    ⟨t ++ [Event.cerr ["Error: options --main and --rgb are mutually exclusive."]], -1⟩
  else if parseResult.IsOptionPresent "--main" && parseResult.IsOptionPresent "--grey" then
    ⟨t ++ [Event.cerr ["Error: options --main and --grey are mutually exclusive."]], -1⟩
  else
    -- Check if a main image file is specified
    let sel := selectMainImage parseResult argv iTrailing
    let fnMain := sel.1
    let main_type := sel.2
    -- If no main, there should be no overlays, segmentation
    if fnMain.isNone && parseResult.IsOptionPresent "--segmentation" then
      ⟨t ++ [Event.cerr ["Error: -s can not be used without -m, -g, or --rgb"]], -1⟩
    else if fnMain.isNone && parseResult.IsOptionPresent "--overlay" then
      ⟨t ++ [Event.cerr ["Error: -o can not be used without -m, -g, or --rgb"]], -1⟩
    else
      loadImages env parseResult fnMain main_type t

/-! ## Vocabulary for statements about `main` -/

/-- The parse result written by `TryParseCommandLine` in `main env argv`. -/
def parseResultOf (env : Environment) (argv : List String) : CommandLineArgumentParseResult :=
  (env.TryParseCommandLine (setupParser CommandLineArgumentParser.default) argv false).2.1

/-- The value written to `iTrailing` by `TryParseCommandLine` in `main env argv`. -/
def iTrailingOf (env : Environment) (argv : List String) : Nat :=
  (env.TryParseCommandLine (setupParser CommandLineArgumentParser.default) argv false).2.2

/-- The command line of `main env argv` was parsed successfully. -/
def parsedOk (env : Environment) (argv : List String) : Bool :=
  (env.TryParseCommandLine (setupParser CommandLineArgumentParser.default) argv false).1

/-- How many of the three main-image options `--main`, `--grey`, `--rgb` are
present in a parse result. -/
def mainOptionCount (parseResult : CommandLineArgumentParseResult) : Nat :=
  (["--main", "--grey", "--rgb"].filter parseResult.IsOptionPresent).length

/-- The main-image loads of a trace: file name and type, in order. -/
def mainLoads (t : List Event) : List (String × MainImageType) :=
  t.filterMap fun e =>
    match e with
    | Event.LoadMainImage fname main_type => some (fname, main_type)
    | _ => none

/-- The overlay loads of a trace: file names, in order. -/
def overlayLoads (t : List Event) : List String :=
  t.filterMap fun e =>
    match e with
    | Event.LoadOverlayImage fname _ => some fname
    | _ => none

/-- An image load: main image, segmentation or overlay. -/
def Event.isImageLoad : Event → Bool
  | Event.LoadMainImage _ _ => true
  | Event.LoadSegmentationImage _ => true
  | Event.LoadOverlayImage _ _ => true
  | _ => false

/-- An image load, a label load, a zoom change, or showing the main window. -/
def Event.isLoadZoomOrShow : Event → Bool
  | Event.LoadMainImage _ _ => true
  | Event.LoadSegmentationImage _ => true
  | Event.LoadOverlayImage _ _ => true
  | Event.LoadLabelDescriptions _ => true
  | Event.SetLinkedZoom _ => true
  | Event.SetZoomLevelAllWindows _ => true
  | Event.show => true
  | _ => false

/-- One of the three error lines of the exclusivity check (lines 178-195). -/
def Event.isExclusivityError (e : Event) : Bool :=
  e = Event.cerr ["Error: options --rgb and --grey are mutually exclusive."] ||
  e = Event.cerr ["Error: options --main and --rgb are mutually exclusive."] ||
  e = Event.cerr ["Error: options --main and --grey are mutually exclusive."]

/-! ## Concrete environments -/

/-- A parse result given by a table of present options and their parameter. -/
def tableResult (opts : List (String × String)) : CommandLineArgumentParseResult :=
  ⟨fun o => (opts.lookup o).isSome, fun o => (opts.lookup o).getD ""⟩

/-- An environment in which parsing succeeds with the given table and
`iTrailing`, no call throws, every zoom text is non-negative and the event
loop returns 0. -/
def tableEnvironment (opts : List (String × String)) (iTrailing : Nat) : Environment :=
  ⟨fun _ _ _ => (true, tableResult opts, iTrailing), fun _ => none, fun _ => true,
   fun s => s, fun _ => 0⟩

/-- Command line `itksnap -g grey.nii extra.nii`: `--grey` with a trailing
argument at index 3. -/
def greyTrailingArgv : List String := ["itksnap", "-g", "grey.nii", "extra.nii"]

/-- Environment for `greyTrailingArgv`. -/
def greyTrailingEnvironment : Environment := tableEnvironment [("--grey", "grey.nii")] 3

/-- Command line `itksnap -g grey.nii --rgb rgb.nii`: two main-image options. -/
def greyRgbArgv : List String := ["itksnap", "-g", "grey.nii", "--rgb", "rgb.nii"]

/-- Environment for `greyRgbArgv`. -/
def greyRgbEnvironment : Environment :=
  tableEnvironment [("--grey", "grey.nii"), ("--rgb", "rgb.nii")] 5

/-- Command line `itksnap -s seg.nii img.nii`: a segmentation and a trailing
main image at index 3, none of `--main`, `--grey`, `--rgb`. -/
def segTrailingArgv : List String := ["itksnap", "-s", "seg.nii", "img.nii"]

/-- Environment for `segTrailingArgv`. -/
def segTrailingEnvironment : Environment := tableEnvironment [("--segmentation", "seg.nii")] 3

/-- Command line `itksnap -s seg.nii`: a segmentation and no main image. -/
def segOnlyArgv : List String := ["itksnap", "-s", "seg.nii"]

/-- Environment for `segOnlyArgv`. -/
def segOnlyEnvironment : Environment := tableEnvironment [("--segmentation", "seg.nii")] 3

/-- Command line `itksnap -m main.nii -o ov1.nii -o ov2.nii`: the overlay
option given twice. -/
def twoOverlaysArgv : List String := ["itksnap", "-m", "main.nii", "-o", "ov1.nii", "-o", "ov2.nii"]

/-- Environment for `twoOverlaysArgv`, the parse result reporting the overlay
file given last. -/
def twoOverlaysEnvironment : Environment :=
  tableEnvironment [("--main", "main.nii"), ("--overlay", "ov2.nii")] 7

/-! ## `AbstractVTKRenderer` -/

/-- The enumeration `AbstractVTKRenderer::InteractionStyle`, with the three
values of the `switch` in `SetInteractionStyle`. -/
inductive InteractionStyle
  | NO_INTERACTION
  | TRACKBALL_CAMERA
  | TRACKBALL_ACTOR
  deriving DecidableEq, Repr

/-- The two VTK classes instantiated by `SetInteractionStyle`. -/
inductive InteractorStyleClass
  | vtkInteractorStyleTrackballCamera
  | vtkInteractorStyleTrackballActor
  deriving DecidableEq, Repr

/-- A VTK interactor style object: its dynamic class and its address. -/
structure vtkInteractorObserver where
  cls : InteractorStyleClass
  addr : Nat
  deriving DecidableEq, Repr

/-- A `vtkRenderer`, identified by its address. -/
structure vtkRenderer where
  addr : Nat
  deriving DecidableEq, Repr

/-- A `vtkGenericOpenGLRenderWindow`: its address and the addresses of the
renderers added to it. -/
structure vtkRenderWindow where
  addr : Nat
  Renderers : List Nat
  deriving DecidableEq, Repr

/-- A `vtkRenderWindowInteractor`: its address, the address of its render window
(if set) and its interactor style (`none` is `NULL`). -/
structure vtkRenderWindowInteractor where
  addr : Nat
  RenderWindow : Option Nat
  InteractorStyle : Option vtkInteractorObserver
  deriving DecidableEq, Repr

/-- The VTK call `window->AddRenderer(renderer)`. -/
def vtkRenderWindow.AddRenderer (w : vtkRenderWindow) (r : vtkRenderer) : vtkRenderWindow :=
  { w with Renderers := w.Renderers ++ [r.addr] }

/-- The VTK call `interactor->SetRenderWindow(window)`. -/
def vtkRenderWindowInteractor.SetRenderWindow (i : vtkRenderWindowInteractor)
    (w : vtkRenderWindow) : vtkRenderWindowInteractor :=
  { i with RenderWindow := some w.addr }

/-- The VTK call `interactor->SetInteractorStyle(style)`. -/
def vtkRenderWindowInteractor.SetInteractorStyle (i : vtkRenderWindowInteractor)
    (style : Option vtkInteractorObserver) : vtkRenderWindowInteractor :=
  { i with InteractorStyle := style }

/-- The data members of `AbstractVTKRenderer` used by the embedded methods. -/
structure AbstractVTKRenderer where
  m_Renderer : vtkRenderer
  m_RenderWindow : vtkRenderWindow
  m_Interactor : vtkRenderWindowInteractor
  deriving DecidableEq, Repr

namespace AbstractVTKRenderer

/-- Embedding of the constructor (AbstractVTKRenderer.cxx lines 10-25).  The
three arguments are the objects returned by the three `New()` calls, in
whatever state VTK creates them. -/
def construct (newRenderer : vtkRenderer) (newRenderWindow : vtkRenderWindow)
    (newInteractor : vtkRenderWindowInteractor) : AbstractVTKRenderer :=
  -- Create a VTK renderer
  let m_Renderer := newRenderer
  -- Set up a render window that uses GL commands to paint
  let m_RenderWindow := newRenderWindow
  -- Add the renderer to the window
  let m_RenderWindow := m_RenderWindow.AddRenderer m_Renderer
  -- Set up the interactor
  let m_Interactor := newInteractor
  let m_Interactor := m_Interactor.SetRenderWindow m_RenderWindow
  let m_Interactor := m_Interactor.SetInteractorStyle none
  ⟨m_Renderer, m_RenderWindow, m_Interactor⟩

/-- Embedding of `GetRenderWindow` (lines 43-46). -/
def GetRenderWindow (self : AbstractVTKRenderer) : vtkRenderWindow :=
  self.m_RenderWindow

/-- Embedding of `GetRenderWindowInteractor` (lines 48-51). -/
def GetRenderWindowInteractor (self : AbstractVTKRenderer) : vtkRenderWindowInteractor :=
  self.m_Interactor

/-- Embedding of `SetInteractionStyle` (lines 53-69).  `fresh` is the address
at which a `New()` call of this invocation allocates its object.  `stylePtr`
starts as `NULL` and each of the three enumerators assigns it. -/
def SetInteractionStyle (self : AbstractVTKRenderer) (style : InteractionStyle) (fresh : Nat) :
    AbstractVTKRenderer :=
  let stylePtr : Option vtkInteractorObserver :=
    match style with
    | InteractionStyle.NO_INTERACTION => none
    | InteractionStyle.TRACKBALL_CAMERA =>
      some ⟨InteractorStyleClass.vtkInteractorStyleTrackballCamera, fresh⟩
    | InteractionStyle.TRACKBALL_ACTOR =>
      some ⟨InteractorStyleClass.vtkInteractorStyleTrackballActor, fresh⟩
  { self with m_Interactor := self.m_Interactor.SetInteractorStyle stylePtr }

end AbstractVTKRenderer

/-! ## Lemmas on the stages of `main` -/

theorem mainLoads_append (a b : List Event) : mainLoads (a ++ b) = mainLoads a ++ mainLoads b := by
  simp [mainLoads, List.filterMap_append]

theorem overlayLoads_append (a b : List Event) :
    overlayLoads (a ++ b) = overlayLoads a ++ overlayLoads b := by
  simp [overlayLoads, List.filterMap_append]

theorem runApplication_rc (env : Environment) (pr : CommandLineArgumentParseResult)
    (t : List Event) : (runApplication env pr t).rc = 0 := by
  simp [runApplication]

theorem runApplication_mainLoads (env : Environment) (pr : CommandLineArgumentParseResult)
    (t : List Event) : mainLoads (runApplication env pr t).trace = mainLoads t := by
  simp only [runApplication]
  repeat' split
  all_goals simp [mainLoads_append, mainLoads]

theorem runApplication_overlayLoads (env : Environment) (pr : CommandLineArgumentParseResult)
    (t : List Event) : overlayLoads (runApplication env pr t).trace = overlayLoads t := by
  simp only [runApplication]
  repeat' split
  all_goals simp [overlayLoads_append, overlayLoads]

theorem runApplication_exclusivity (env : Environment) (pr : CommandLineArgumentParseResult)
    (t : List Event) :
    (runApplication env pr t).trace.filter Event.isExclusivityError =
      t.filter Event.isExclusivityError := by
  simp only [runApplication]
  repeat' split
  all_goals simp [List.filter_append, List.filter_cons, Event.isExclusivityError]

theorem loadOverlay_mainLoads (env : Environment) (pr : CommandLineArgumentParseResult)
    (t : List Event) : mainLoads (loadOverlay env pr t).trace = mainLoads t := by
  simp only [loadOverlay]
  repeat' split
  all_goals simp only [runApplication_mainLoads, mainLoads_append]
  all_goals simp [mainLoads]

theorem loadOverlay_overlayLoads (env : Environment) (pr : CommandLineArgumentParseResult)
    (t : List Event) :
    overlayLoads (loadOverlay env pr t).trace =
      overlayLoads t ++
        (if pr.IsOptionPresent "--overlay" then [pr.GetOptionParameter "--overlay"] else []) := by
  simp only [loadOverlay]
  repeat' split
  all_goals simp only [runApplication_overlayLoads, overlayLoads_append]
  all_goals simp [overlayLoads]

theorem loadOverlay_exclusivity (env : Environment) (pr : CommandLineArgumentParseResult)
    (t : List Event) :
    (loadOverlay env pr t).trace.filter Event.isExclusivityError =
      t.filter Event.isExclusivityError := by
  simp only [loadOverlay]
  repeat' split
  all_goals
    simp [runApplication_exclusivity, List.filter_append, List.filter_cons,
      Event.isExclusivityError]

theorem loadSegmentation_mainLoads (env : Environment) (pr : CommandLineArgumentParseResult)
    (t : List Event) : mainLoads (loadSegmentation env pr t).trace = mainLoads t := by
  simp only [loadSegmentation]
  repeat' split
  all_goals simp only [loadOverlay_mainLoads, mainLoads_append]
  all_goals simp [mainLoads]

theorem loadSegmentation_overlayLoads_length (env : Environment)
    (pr : CommandLineArgumentParseResult) (t : List Event) :
    (overlayLoads (loadSegmentation env pr t).trace).length ≤ (overlayLoads t).length + 1 := by
  simp only [loadSegmentation]
  repeat' split
  all_goals simp only [loadOverlay_overlayLoads, overlayLoads_append]
  all_goals (try split)
  all_goals simp [overlayLoads]

theorem loadSegmentation_exclusivity (env : Environment) (pr : CommandLineArgumentParseResult)
    (t : List Event) :
    (loadSegmentation env pr t).trace.filter Event.isExclusivityError =
      t.filter Event.isExclusivityError := by
  simp only [loadSegmentation]
  repeat' split
  all_goals
    simp [loadOverlay_exclusivity, List.filter_append, List.filter_cons,
      Event.isExclusivityError]

theorem loadImages_mainLoads (env : Environment) (pr : CommandLineArgumentParseResult)
    (fnMain : Option String) (main_type : MainImageType) (t : List Event) :
    mainLoads (loadImages env pr fnMain main_type t).trace =
      mainLoads t ++ (match fnMain with | some fn => [(fn, main_type)] | none => []) := by
  simp only [loadImages]
  repeat' split
  all_goals simp only [loadSegmentation_mainLoads, runApplication_mainLoads, mainLoads_append]
  all_goals simp [mainLoads]

theorem loadImages_overlayLoads_length (env : Environment) (pr : CommandLineArgumentParseResult)
    (fnMain : Option String) (main_type : MainImageType) (t : List Event) :
    (overlayLoads (loadImages env pr fnMain main_type t).trace).length ≤
      (overlayLoads t).length + 1 := by
  simp only [loadImages]
  repeat' split
  · simp [overlayLoads_append, overlayLoads]
  · refine le_trans (loadSegmentation_overlayLoads_length env pr _) ?_
    simp [overlayLoads_append, overlayLoads]
  · simp [runApplication_overlayLoads]

theorem loadImages_exclusivity (env : Environment) (pr : CommandLineArgumentParseResult)
    (fnMain : Option String) (main_type : MainImageType) (t : List Event) :
    (loadImages env pr fnMain main_type t).trace.filter Event.isExclusivityError =
      t.filter Event.isExclusivityError := by
  simp only [loadImages]
  repeat' split
  all_goals
    simp [loadSegmentation_exclusivity, runApplication_exclusivity, List.filter_append,
      List.filter_cons, Event.isExclusivityError]

/-- The main-image loads of a run of `main` whose command line parsed, without
`--help` and with at most one main-image option. -/
theorem main_mainLoads (env : Environment) (argv : List String)
    (hparsed : parsedOk env argv = true)
    (hhelp : (parseResultOf env argv).IsOptionPresent "--help" = false)
    (hone : mainOptionCount (parseResultOf env argv) ≤ 1) :
    mainLoads (main env argv).trace =
      (if (parseResultOf env argv).IsOptionPresent "--main" then
        [((parseResultOf env argv).GetOptionParameter "--main", MainImageType.MAIN_ANY)]
      else if (parseResultOf env argv).IsOptionPresent "--grey" then
        [((parseResultOf env argv).GetOptionParameter "--grey", MainImageType.MAIN_SCALAR)]
      else if (parseResultOf env argv).IsOptionPresent "--rgb" then
        [((parseResultOf env argv).GetOptionParameter "--rgb", MainImageType.MAIN_RGB)]
      else if h : iTrailingOf env argv < argv.length then
        [(argv.get ⟨iTrailingOf env argv, h⟩, MainImageType.MAIN_ANY)]
      else []) := by
  simp only [parsedOk, parseResultOf, iTrailingOf, mainOptionCount] at *
  simp only [main]
  cases hm : (env.TryParseCommandLine (setupParser CommandLineArgumentParser.default) argv
      false).2.1.IsOptionPresent "--main" <;>
    cases hg : (env.TryParseCommandLine (setupParser CommandLineArgumentParser.default) argv
      false).2.1.IsOptionPresent "--grey" <;>
    cases hr : (env.TryParseCommandLine (setupParser CommandLineArgumentParser.default) argv
      false).2.1.IsOptionPresent "--rgb" <;>
    cases hs : (env.TryParseCommandLine (setupParser CommandLineArgumentParser.default) argv
      false).2.1.IsOptionPresent "--segmentation" <;>
    cases ho : (env.TryParseCommandLine (setupParser CommandLineArgumentParser.default) argv
      false).2.1.IsOptionPresent "--overlay" <;>
    by_cases h : (env.TryParseCommandLine (setupParser CommandLineArgumentParser.default) argv
        false).2.2 < argv.length <;>
    simp [hm, hg, hr, hs, ho, h, hhelp, hparsed, List.filter, selectMainImage,
      loadImages_mainLoads] at hone ⊢ <;>
    simp [mainLoads]

/-- No run of `main` emits an exclusivity error when at most one main-image
option is present. -/
theorem main_exclusivity (env : Environment) (argv : List String)
    (hparsed : parsedOk env argv = true)
    (hhelp : (parseResultOf env argv).IsOptionPresent "--help" = false)
    (hone : mainOptionCount (parseResultOf env argv) ≤ 1) :
    (main env argv).trace.filter Event.isExclusivityError = [] := by
  simp only [parsedOk, parseResultOf, mainOptionCount] at *
  simp only [main]
  cases hm : (env.TryParseCommandLine (setupParser CommandLineArgumentParser.default) argv
      false).2.1.IsOptionPresent "--main" <;>
    cases hg : (env.TryParseCommandLine (setupParser CommandLineArgumentParser.default) argv
      false).2.1.IsOptionPresent "--grey" <;>
    cases hr : (env.TryParseCommandLine (setupParser CommandLineArgumentParser.default) argv
      false).2.1.IsOptionPresent "--rgb" <;>
    simp only [hm, hg, hr, hhelp, hparsed] <;>
    simp [List.filter, hm, hg, hr] at hone <;>
    repeat' split
  all_goals (try simp only [loadImages_exclusivity])
  all_goals simp_all [List.filter_cons, Event.isExclusivityError]

/-- No run of `main` performs more than one overlay load. -/
theorem main_overlayLoads_length (env : Environment) (argv : List String) :
    (overlayLoads (main env argv).trace).length ≤ 1 := by
  simp only [main]
  repeat' split
  all_goals first
    | (refine le_trans (loadImages_overlayLoads_length env _ _ _ _) ?_
       simp [overlayLoads])
    | simp [overlayLoads]

/-! ## The claims -/

/-- C1: main-image selection.  For a command line that parsed successfully,
without `--help`, and with at most one of `--main`, `--grey`, `--rgb` present,
the main-image loads issued by `main` are: `--main FILE` gives one load of
`(FILE, MAIN_ANY)`; otherwise `--grey FILE` gives `(FILE, MAIN_SCALAR)`;
otherwise `--rgb FILE` gives `(FILE, MAIN_RGB)`; otherwise a trailing argument
(`iTrailing < argc`) gives `(argv[iTrailing], MAIN_ANY)`; otherwise no main
image is loaded.  Moreover, when `--grey` or `--rgb` is present, any other run
with the same parse result, whatever its argument vector and `iTrailing`,
issues the same main-image load: trailing arguments are ignored. -/
theorem main_image_selection (env : Environment) (argv : List String)
    (hparsed : parsedOk env argv = true)
    (hhelp : (parseResultOf env argv).IsOptionPresent "--help" = false)
    (hone : mainOptionCount (parseResultOf env argv) ≤ 1) :
    mainLoads (main env argv).trace =
      (if (parseResultOf env argv).IsOptionPresent "--main" then
        [((parseResultOf env argv).GetOptionParameter "--main", MainImageType.MAIN_ANY)]
      else if (parseResultOf env argv).IsOptionPresent "--grey" then
        [((parseResultOf env argv).GetOptionParameter "--grey", MainImageType.MAIN_SCALAR)]
      else if (parseResultOf env argv).IsOptionPresent "--rgb" then
        [((parseResultOf env argv).GetOptionParameter "--rgb", MainImageType.MAIN_RGB)]
      else if h : iTrailingOf env argv < argv.length then
        [(argv.get ⟨iTrailingOf env argv, h⟩, MainImageType.MAIN_ANY)]
      else []) ∧
    ∀ (env2 : Environment) (argv2 : List String),
      parsedOk env2 argv2 = true →
      parseResultOf env2 argv2 = parseResultOf env argv →
      ((parseResultOf env argv).IsOptionPresent "--grey" = true ∨
        (parseResultOf env argv).IsOptionPresent "--rgb" = true) →
      mainLoads (main env2 argv2).trace = mainLoads (main env argv).trace := by
  refine ⟨main_mainLoads env argv hparsed hhelp hone, ?_⟩
  intro env2 argv2 hparsed2 hsame hgr
  have h1 := main_mainLoads env argv hparsed hhelp hone
  have h2 := main_mainLoads env2 argv2 hparsed2 (by rw [hsame]; exact hhelp)
    (by rw [hsame]; exact hone)
  rw [h1, h2, hsame]
  rcases hgr with hg | hr
  · simp [hg]
  · simp [hr]

/-- Witness of C1 at `itksnap -g grey.nii extra.nii`. -/
theorem main_image_selection_witness :
    parsedOk greyTrailingEnvironment greyTrailingArgv = true ∧
    (parseResultOf greyTrailingEnvironment greyTrailingArgv).IsOptionPresent "--help" = false ∧
    mainOptionCount (parseResultOf greyTrailingEnvironment greyTrailingArgv) ≤ 1 ∧
    mainLoads (main greyTrailingEnvironment greyTrailingArgv).trace =
      [("grey.nii", MainImageType.MAIN_SCALAR)] :=
  ⟨by decide, by decide, by decide,
    (main_image_selection greyTrailingEnvironment greyTrailingArgv (by decide) (by decide)
      (by decide)).1.trans (by decide)⟩

/-- C2: mutual exclusivity of the main-image options.  For a command line that
parsed successfully and without `--help`: if at least two of `--main`, `--grey`,
`--rgb` are present, `main` returns -1 and performs no image load, no label
load, no zoom change and does not show the main window; and if at most one of
them is present, `main` emits none of the exclusivity errors. -/
theorem main_exclusive_main_options (env : Environment) (argv : List String)
    (hparsed : parsedOk env argv = true)
    (hhelp : (parseResultOf env argv).IsOptionPresent "--help" = false) :
    (2 ≤ mainOptionCount (parseResultOf env argv) →
      (main env argv).rc = -1 ∧ ∀ e ∈ (main env argv).trace, e.isLoadZoomOrShow = false) ∧
    (mainOptionCount (parseResultOf env argv) ≤ 1 →
      ∀ e ∈ (main env argv).trace, e.isExclusivityError = false) := by
  constructor
  · intro htwo
    simp only [parsedOk, parseResultOf, mainOptionCount] at *
    simp only [main]
    cases hm : (env.TryParseCommandLine (setupParser CommandLineArgumentParser.default) argv
        false).2.1.IsOptionPresent "--main" <;>
      cases hg : (env.TryParseCommandLine (setupParser CommandLineArgumentParser.default) argv
        false).2.1.IsOptionPresent "--grey" <;>
      cases hr : (env.TryParseCommandLine (setupParser CommandLineArgumentParser.default) argv
        false).2.1.IsOptionPresent "--rgb" <;>
      simp [List.filter, hm, hg, hr] at htwo <;>
      simp [hm, hg, hr, hhelp, hparsed, Event.isLoadZoomOrShow]
  · intro hone e he
    have h := main_exclusivity env argv hparsed hhelp hone
    rw [List.filter_eq_nil_iff] at h
    simpa using h e he

/-- Witness of C2 at `itksnap -g grey.nii --rgb rgb.nii`, where two main-image
options are present. -/
theorem main_exclusive_main_options_witness :
    parsedOk greyRgbEnvironment greyRgbArgv = true ∧
    (parseResultOf greyRgbEnvironment greyRgbArgv).IsOptionPresent "--help" = false ∧
    2 ≤ mainOptionCount (parseResultOf greyRgbEnvironment greyRgbArgv) ∧
    (main greyRgbEnvironment greyRgbArgv).rc = -1 ∧
    ∀ e ∈ (main greyRgbEnvironment greyRgbArgv).trace, e.isLoadZoomOrShow = false :=
  ⟨by decide, by decide, by decide,
    (main_exclusive_main_options greyRgbEnvironment greyRgbArgv (by decide) (by decide)).1
      (by decide)⟩

/-- C3 as stated fails: at `itksnap -s seg.nii img.nii` the command line parses,
has no `--help`, has `--segmentation` and none of `--main`, `--grey`, `--rgb`,
yet `main` loads `img.nii` as main image and `seg.nii` as segmentation, shows
the window and returns 0. -/
theorem segmentation_with_trailing_image_accepted :
    parsedOk segTrailingEnvironment segTrailingArgv = true ∧
    (parseResultOf segTrailingEnvironment segTrailingArgv).IsOptionPresent "--help" = false ∧
    (parseResultOf segTrailingEnvironment segTrailingArgv).IsOptionPresent "--segmentation"
      = true ∧
    (parseResultOf segTrailingEnvironment segTrailingArgv).IsOptionPresent "--main" = false ∧
    (parseResultOf segTrailingEnvironment segTrailingArgv).IsOptionPresent "--grey" = false ∧
    (parseResultOf segTrailingEnvironment segTrailingArgv).IsOptionPresent "--rgb" = false ∧
    main segTrailingEnvironment segTrailingArgv =
      ⟨[Event.LoadUserPreferences, Event.MainWindowSetup,
        Event.LoadMainImage "img.nii" MainImageType.MAIN_ANY,
        Event.LoadSegmentationImage "seg.nii",
        Event.show, Event.exec, Event.SaveUserPreferences], 0⟩ := by
  decide

/-- C3, amended: for a command line that parsed successfully, without `--help`,
in which `--segmentation` or `--overlay` is present, none of `--main`, `--grey`,
`--rgb` is present and there is no trailing argument (`iTrailing >= argc`),
`main` returns -1 and loads no image. -/
theorem main_rejects_segmentation_overlay_without_main (env : Environment) (argv : List String)
    (hparsed : parsedOk env argv = true)
    (hhelp : (parseResultOf env argv).IsOptionPresent "--help" = false)
    (hso : (parseResultOf env argv).IsOptionPresent "--segmentation" = true ∨
      (parseResultOf env argv).IsOptionPresent "--overlay" = true)
    (hm : (parseResultOf env argv).IsOptionPresent "--main" = false)
    (hg : (parseResultOf env argv).IsOptionPresent "--grey" = false)
    (hr : (parseResultOf env argv).IsOptionPresent "--rgb" = false)
    (htrail : argv.length ≤ iTrailingOf env argv) :
    (main env argv).rc = -1 ∧ ∀ e ∈ (main env argv).trace, e.isImageLoad = false := by
  simp only [parsedOk, parseResultOf, iTrailingOf] at *
  have h : ¬ (env.TryParseCommandLine (setupParser CommandLineArgumentParser.default) argv
      false).2.2 < argv.length := Nat.not_lt.mpr htrail
  simp only [main]
  cases hs : (env.TryParseCommandLine (setupParser CommandLineArgumentParser.default) argv
      false).2.1.IsOptionPresent "--segmentation" <;>
    cases ho : (env.TryParseCommandLine (setupParser CommandLineArgumentParser.default) argv
      false).2.1.IsOptionPresent "--overlay" <;>
    simp [hs, ho] at hso <;>
    simp [hm, hg, hr, hs, ho, h, hhelp, hparsed, selectMainImage, Event.isImageLoad]

/-- Witness of the amended C3 at `itksnap -s seg.nii`. -/
theorem main_rejects_segmentation_overlay_without_main_witness :
    parsedOk segOnlyEnvironment segOnlyArgv = true ∧
    (parseResultOf segOnlyEnvironment segOnlyArgv).IsOptionPresent "--help" = false ∧
    ((parseResultOf segOnlyEnvironment segOnlyArgv).IsOptionPresent "--segmentation" = true ∨
      (parseResultOf segOnlyEnvironment segOnlyArgv).IsOptionPresent "--overlay" = true) ∧
    (parseResultOf segOnlyEnvironment segOnlyArgv).IsOptionPresent "--main" = false ∧
    (parseResultOf segOnlyEnvironment segOnlyArgv).IsOptionPresent "--grey" = false ∧
    (parseResultOf segOnlyEnvironment segOnlyArgv).IsOptionPresent "--rgb" = false ∧
    segOnlyArgv.length ≤ iTrailingOf segOnlyEnvironment segOnlyArgv ∧
    (main segOnlyEnvironment segOnlyArgv).rc = -1 ∧
    ∀ e ∈ (main segOnlyEnvironment segOnlyArgv).trace, e.isImageLoad = false :=
  ⟨by decide, by decide, by decide, by decide, by decide, by decide, by decide,
    main_rejects_segmentation_overlay_without_main segOnlyEnvironment segOnlyArgv (by decide)
      (by decide) (by decide) (by decide) (by decide) (by decide) (by decide)⟩

/-- C4 fails on the code: whatever the parser reports, a run of `main` issues
at most one overlay load, so an overlay option given k >= 2 times does not
produce k loads.  At `itksnap -m main.nii -o ov1.nii -o ov2.nii`, with the
parse result reporting the overlay given last, the only overlay load is
`ov2.nii`. -/
theorem main_loads_at_most_one_overlay :
    (∀ (env : Environment) (argv : List String),
      (overlayLoads (main env argv).trace).length ≤ 1) ∧
    overlayLoads (main twoOverlaysEnvironment twoOverlaysArgv).trace = ["ov2.nii"] :=
  ⟨main_overlayLoads_length, by decide⟩

/-- C5: interactor-style selection.  After construction the interactor style is
null.  After `SetInteractionStyle(style)` the interactor style is the one
selected by the argument (`NO_INTERACTION`: null, `TRACKBALL_CAMERA`: a freshly
created trackball-camera style, `TRACKBALL_ACTOR`: a freshly created
trackball-actor style), whatever the renderer state before the call; the
renderer, the render window and the interactor object (its address and its
render window) are unchanged; and `SetInteractionStyle(NO_INTERACTION)` gives
the style the constructor established. -/
theorem interaction_style_selection :
    (∀ (r : vtkRenderer) (w : vtkRenderWindow) (i : vtkRenderWindowInteractor),
      (AbstractVTKRenderer.construct r w i).m_Interactor.InteractorStyle = none) ∧
    (∀ (self : AbstractVTKRenderer) (style : InteractionStyle) (fresh : Nat),
      (self.SetInteractionStyle style fresh).m_Interactor.InteractorStyle =
        (match style with
          | InteractionStyle.NO_INTERACTION => none
          | InteractionStyle.TRACKBALL_CAMERA =>
            some ⟨InteractorStyleClass.vtkInteractorStyleTrackballCamera, fresh⟩
          | InteractionStyle.TRACKBALL_ACTOR =>
            some ⟨InteractorStyleClass.vtkInteractorStyleTrackballActor, fresh⟩) ∧
      (self.SetInteractionStyle style fresh).m_Renderer = self.m_Renderer ∧
      (self.SetInteractionStyle style fresh).m_RenderWindow = self.m_RenderWindow ∧
      (self.SetInteractionStyle style fresh).m_Interactor.addr = self.m_Interactor.addr ∧
      (self.SetInteractionStyle style fresh).m_Interactor.RenderWindow =
        self.m_Interactor.RenderWindow) ∧
    (∀ (self other : AbstractVTKRenderer) (style : InteractionStyle) (fresh : Nat),
      (self.SetInteractionStyle style fresh).m_Interactor.InteractorStyle =
        (other.SetInteractionStyle style fresh).m_Interactor.InteractorStyle) ∧
    (∀ (self : AbstractVTKRenderer) (fresh : Nat) (r : vtkRenderer) (w : vtkRenderWindow)
        (i : vtkRenderWindowInteractor),
      (self.SetInteractionStyle InteractionStyle.NO_INTERACTION fresh).m_Interactor.InteractorStyle =
        (AbstractVTKRenderer.construct r w i).m_Interactor.InteractorStyle) := by
  refine ⟨?_, ?_, ?_, ?_⟩
  · intro r w i
    rfl
  · intro self style fresh
    cases style <;> exact ⟨rfl, rfl, rfl, rfl, rfl⟩
  · intro self other style fresh
    cases style <;> rfl
  · intro self fresh r w i
    rfl

end ITKSnap
